import Mathlib

/-!
Verification of the spin resolution and outcome pipeline of the
Leafs-Injury-Timetable-Roulette application (src/index.tsx).

The relevant program fragments are embedded shallowly:
* the wheel segment list `SEGMENTS` (src/index.tsx lines 12-21);
* the spin handler `handleSpin` (lines 117-136), split into the rotation
  update (`nextTarget`) and the delayed resolution callback
  (`normalizedRotation`, `degreesFromTop`, `resolveIndex`);
* the outcome fetcher `generateFunnyInjury` (lines 29-79), parameterised by
  the outcome of the external generation service call;
* the application state (`App`, lines 323-334, together with the `Wheel`
  rotation state, line 91) as an explicit state record with step functions
  for the spin click, the timer firing, and the fetch settling.

Numbers are modelled exactly: every rotation value the program ever
constructs is a nonnegative integer (the initial rotation is 0 and each
spin adds `extraSpins * 360 + randomOffset`, both integers), and all the
JavaScript arithmetic on such values, including `% 360` and the division
by the segment angle `360 / 8 = 45`, is exact in IEEE doubles at these
magnitudes, so rational arithmetic is a faithful model.
-/

/-- Wheel segments, src/index.tsx lines 12-21 (the timelines). -/
def SEGMENTS : List String :=
  ["Day-to-Day",
   "Week-to-Week",
   "Month-to-Month",
   "Indefinite",
   "Game-Time Decision",
   "Robidas Island",
   "Maintenance Day",
   "Until Playoffs"]

/-- JavaScript remainder `a % b`. JavaScript uses the truncated-division
remainder; for a nonnegative dividend and positive divisor (the only case
arising in the program: the dividends are a cumulative rotation, which is
nonnegative, and `360 - normalizedRotation`, which lies in `(0, 360]`) it
coincides with this floor-based remainder. -/
def jsMod (a b : ℚ) : ℚ := a - b * (⌊a / b⌋ : ℚ)

/-- Line 130: `const normalizedRotation = newRotation % 360`. -/
def normalizedRotation (rotation : ℚ) : ℚ := jsMod rotation 360

/-- Line 131: `const degreesFromTop = (360 - normalizedRotation) % 360`. -/
def degreesFromTop (rotation : ℚ) : ℚ :=
  jsMod (360 - normalizedRotation rotation) 360

/-- Line 120: `const segmentAngle = 360 / SEGMENTS.length`. -/
def segmentAngle (segmentCount : ℕ) : ℚ := 360 / (segmentCount : ℚ)

/-- Line 132: `const segmentIndex = Math.floor(degreesFromTop / segmentAngle)`.
The angle resolver: the full pure computation of lines 130-132 applied to a
cumulative rotation. -/
def resolveIndex (rotation : ℚ) (segmentCount : ℕ) : ℤ :=
  ⌊degreesFromTop rotation / segmentAngle segmentCount⌋

/-- Line 122: `const extraSpins = 5 + Math.floor(Math.random() * 5)`, with
the random draw `Math.floor(Math.random() * 5)` (an integer in `[0, 4]`)
made an explicit parameter. -/
def extraSpins (spinRand : ℕ) : ℕ := 5 + spinRand

/-- Lines 124-125: `const randomOffset = Math.floor(Math.random() * 360);
const newRotation = rotation + (extraSpins * 360) + randomOffset`, with the
two random draws (`spinRand` in `[0, 4]`, `offsetRand` in `[0, 359]`) made
explicit parameters. This is the spin randomizer. -/
def nextTarget (previousRotation : ℚ) (spinRand offsetRand : ℕ) : ℚ :=
  previousRotation + ((extraSpins spinRand * 360 : ℕ) : ℚ) + ((offsetRand : ℕ) : ℚ)

/-- The outcome record: the five string fields of the JSON schema of the
generation request (lines 55-64) and of the fallback object (lines 71-77). -/
structure OutcomeRecord where
  player_alias : String
  diagnosis : String
  timeline : String
  coach_quote : String
  cap_implication : String
deriving DecidableEq

/-- A JavaScript object carrying at most the five outcome fields, as
produced by `JSON.parse` on the service response text: each field is
present (`some`) or absent/undefined (`none`). `JSON.parse` performs no
schema validation, so fields may be missing. -/
structure PartialRecord where
  player_alias : Option String
  diagnosis : Option String
  timeline : Option String
  coach_quote : Option String
  cap_implication : Option String
deriving DecidableEq

/-- View of a fully populated record as a parsed object (all fields present). -/
def toPartial (r : OutcomeRecord) : PartialRecord :=
  { player_alias := some r.player_alias,
    diagnosis := some r.diagnosis,
    timeline := some r.timeline,
    coach_quote := some r.coach_quote,
    cap_implication := some r.cap_implication }

/-- All five fields of a parsed object are present. -/
def allFieldsPresent (p : PartialRecord) : Prop :=
  p.player_alias.isSome = true ∧ p.diagnosis.isSome = true ∧
  p.timeline.isSome = true ∧ p.coach_quote.isSome = true ∧
  p.cap_implication.isSome = true

instance (p : PartialRecord) : Decidable (allFieldsPresent p) := by
  unfold allFieldsPresent; infer_instance

/-- All five fields of an outcome record are non-empty strings. -/
def allFieldsNonEmpty (r : OutcomeRecord) : Prop :=
  r.player_alias ≠ "" ∧ r.diagnosis ≠ "" ∧ r.timeline ≠ "" ∧
  r.coach_quote ≠ "" ∧ r.cap_implication ≠ ""

instance (r : OutcomeRecord) : Decidable (allFieldsNonEmpty r) := by
  unfold allFieldsNonEmpty; infer_instance

/-- Lines 31-32: the shorthand expansion used in the prompt only:
`if (timelineCategory === "Robidas Island") promptTimeline = "Long Term
Injured Reserve (LTIR) / Robidas Island"`. -/
def promptTimeline (timelineCategory : String) : String :=
  if timelineCategory = "Robidas Island"
  then "Long Term Injured Reserve (LTIR) / Robidas Island"
  else timelineCategory

/-- Lines 71-77: the fallback object returned from the catch block, with
the raw (unexpanded) input category as the timeline field. -/
def fallbackRecord (timelineCategory : String) : OutcomeRecord :=
  { player_alias := "Core Four Member",
    diagnosis := "Failed to load AI wit.",
    timeline := timelineCategory,
    coach_quote := "We\x27re just taking it one error at a time.",
    cap_implication := "We are over the limit." }

/-- Outcome of the external generation service call, as observed by
`generateFunnyInjury`:
* `failure`: `ai.models.generateContent` (line 50) rejects (network error,
  service error, non-2xx);
* `parseThrows`: the call succeeds but `JSON.parse(response.text)`
  (line 68) throws on malformed text;
* `parsed o`: `JSON.parse(response.text)` succeeds and yields the object
  `o` (with whichever of the five fields the text actually contained). -/
inductive ServiceOutcome where
  | failure : ServiceOutcome
  | parseThrows : ServiceOutcome
  | parsed : PartialRecord → ServiceOutcome
deriving DecidableEq

/-- Lines 29-79: `generateFunnyInjury(timelineCategory)`, parameterised by
the service outcome. The try block has a single return,
`JSON.parse(response.text)` (line 68), returned without any field
validation; any exception, from the service call or from `JSON.parse`,
lands in the catch block (lines 69-78), which returns the fallback object.
The function is total: it never raises to its caller. -/
def generateFunnyInjury (timelineCategory : String) (svc : ServiceOutcome) :
    PartialRecord :=
  match svc with
  | ServiceOutcome.failure => toPartial (fallbackRecord timelineCategory)
  | ServiceOutcome.parseThrows => toPartial (fallbackRecord timelineCategory)
  | ServiceOutcome.parsed o => o

/-- Combined state of the `App` component (lines 323-326: `isSpinning`,
`resultData`, `loadingAI`) and of the `Wheel` component (line 91:
`rotation`), together with the pending asynchronous work:
* `pendingTimers`: the `setTimeout` callbacks scheduled on line 129 and
  not yet fired, each capturing the `newRotation` of its spin;
* `pendingFetches`: the `generateFunnyInjury` calls awaited on line 330
  and not yet settled, each with its resolved category. -/
structure AppState where
  rotation : ℚ
  isSpinning : Bool
  loadingAI : Bool
  resultData : Option PartialRecord
  pendingTimers : List ℚ
  pendingFetches : List String
deriving DecidableEq

/-- Initial state: `useState(0)`, `useState(false)`, `useState(null)`,
`useState(false)` (lines 91, 324-326), nothing scheduled. -/
def initialState : AppState :=
  { rotation := 0, isSpinning := false, loadingAI := false,
    resultData := none, pendingTimers := [], pendingFetches := [] }

/-- Line 362: the `isSpinning` prop passed to `Wheel` is
`isSpinning || loadingAI`. -/
def isSpinningProp (s : AppState) : Bool := s.isSpinning || s.loadingAI

/-- Lines 117-136: `handleSpin`, the spin entry point. If the `isSpinning`
prop is set it returns immediately (line 118). Otherwise it computes the
new rotation from the two random draws, stores it (line 127), and schedules
a resolution callback capturing `newRotation` (line 129). Note that `App`
never sets its `isSpinning` state to true, so the guard sees only
`loadingAI`. -/
def handleSpin (s : AppState) (spinRand offsetRand : ℕ) : AppState :=
  if isSpinningProp s then s
  else
    let newRotation := nextTarget s.rotation spinRand offsetRand
    { s with rotation := newRotation,
             pendingTimers := s.pendingTimers ++ [newRotation] }

/-- A scheduled resolution callback fires (all delays are the fixed
3000 ms, so callbacks fire in scheduling order): lines 129-135 resolve the
segment from the captured `newRotation` and call `onSpinEnd`, i.e.
`handleSpinEnd` (line 328), which synchronously runs `setLoadingAI(true)`
(line 329) and then suspends awaiting `generateFunnyInjury` (line 330). -/
def fireTimer (s : AppState) : AppState :=
  match s.pendingTimers with
  | [] => s
  | newRotation :: rest =>
    { s with pendingTimers := rest,
             loadingAI := true,
             pendingFetches :=
               s.pendingFetches ++
                 [SEGMENTS.getD (resolveIndex newRotation 8).toNat ""] }

/-- Line 331: `setResultData(data)`. -/
def setResultData (s : AppState) (d : PartialRecord) : AppState :=
  { s with resultData := some d }

/-- Line 332 and line 329: `setLoadingAI(b)`. -/
def setLoadingAI (s : AppState) (b : Bool) : AppState :=
  { s with loadingAI := b }

/-- Line 333: `setIsSpinning(b)`. The program contains no
`setIsSpinning(true)` call. -/
def setIsSpinning (s : AppState) (b : Bool) : AppState :=
  { s with isSpinning := b }

/-- Lines 331-333: the continuation of `handleSpinEnd` after the await
settles with service outcome `svc`, in program order: `setResultData(data)`
first, then `setLoadingAI(false)`, then `setIsSpinning(false)`. -/
def handleSpinEndResume (s : AppState) (cat : String) (svc : ServiceOutcome) :
    AppState :=
  setIsSpinning (setLoadingAI (setResultData s (generateFunnyInjury cat svc)) false) false

/-- An awaited `generateFunnyInjury` call settles (fetches settle in start
order) and the continuation of `handleSpinEnd` runs. -/
def settleFetch (s : AppState) (svc : ServiceOutcome) : AppState :=
  match s.pendingFetches with
  | [] => s
  | cat :: rest => handleSpinEndResume { s with pendingFetches := rest } cat svc

/-! ## Helper lemmas about the floor-based remainder -/

lemma jsMod_eq_fract (a b : ℚ) (hb : b ≠ 0) :
    jsMod a b = b * Int.fract (a / b) := by
  unfold jsMod
  rw [Int.fract, mul_sub, mul_comm b (a / b), div_mul_cancel₀ a hb]

lemma jsMod_nonneg (a b : ℚ) (hb : 0 < b) : 0 ≤ jsMod a b := by
  rw [jsMod_eq_fract a b hb.ne']
  exact mul_nonneg hb.le (Int.fract_nonneg _)

lemma jsMod_lt (a b : ℚ) (hb : 0 < b) : jsMod a b < b := by
  rw [jsMod_eq_fract a b hb.ne']
  calc b * Int.fract (a / b) < b * 1 :=
        mul_lt_mul_of_pos_left (Int.fract_lt_one _) hb
    _ = b := mul_one b

lemma jsMod_add_mul_int (a b : ℚ) (k : ℤ) (hb : b ≠ 0) :
    jsMod (a + b * (k : ℚ)) b = jsMod a b := by
  unfold jsMod
  have h : (a + b * (k : ℚ)) / b = a / b + (k : ℚ) := by
    field_simp
    ring
  rw [h, Int.floor_add_int]
  push_cast
  ring

lemma degreesFromTop_nonneg (rotation : ℚ) : 0 ≤ degreesFromTop rotation :=
  jsMod_nonneg _ _ (by norm_num)

lemma degreesFromTop_lt (rotation : ℚ) : degreesFromTop rotation < 360 :=
  jsMod_lt _ _ (by norm_num)

lemma resolveIndex_nonneg_lt (rotation : ℚ) (segmentCount : ℕ)
    (hN : 0 < segmentCount) :
    0 ≤ resolveIndex rotation segmentCount ∧
    resolveIndex rotation segmentCount < (segmentCount : ℤ) := by
  have hNQ : (0 : ℚ) < (segmentCount : ℚ) := by exact_mod_cast hN
  have hseg : 0 < segmentAngle segmentCount := by
    unfold segmentAngle; positivity
  constructor
  · exact Int.floor_nonneg.mpr (div_nonneg (degreesFromTop_nonneg rotation) hseg.le)
  · apply Int.floor_lt.mpr
    rw [div_lt_iff₀ hseg]
    have hmul : ((segmentCount : ℤ) : ℚ) * segmentAngle segmentCount = 360 := by
      unfold segmentAngle
      push_cast
      field_simp
    rw [hmul]
    exact degreesFromTop_lt rotation

/-! ## Claim theorems about the angle resolver -/

/-- Claim C4: for every rotation and positive segment count the resolver
returns an index in `[0, segmentCount - 1]` (a full turn never resolves to
index `segmentCount`), so indexing the length-8 segment list never goes out
of bounds. -/
theorem resolveIndex_in_range (rotation : ℚ) (segmentCount : ℕ)
    (hN : 0 < segmentCount) :
    0 ≤ resolveIndex rotation segmentCount ∧
    resolveIndex rotation segmentCount ≤ (segmentCount : ℤ) - 1 ∧
    (resolveIndex rotation 8).toNat < SEGMENTS.length := by
  obtain ⟨h1, h2⟩ := resolveIndex_nonneg_lt rotation segmentCount hN
  obtain ⟨h3, h4⟩ := resolveIndex_nonneg_lt rotation 8 (by norm_num)
  have hlen : SEGMENTS.length = 8 := rfl
  refine ⟨h1, by omega, ?_⟩
  rw [hlen]
  omega

theorem resolveIndex_in_range_witness :
    0 < 8 ∧
    (0 ≤ resolveIndex 1840 8 ∧ resolveIndex 1840 8 ≤ ((8 : ℕ) : ℤ) - 1 ∧
      (resolveIndex 1840 8).toNat < SEGMENTS.length) :=
  ⟨by decide, resolveIndex_in_range 1840 8 (by decide)⟩

/-- Claim C5: the resolver is periodic with period 360: shifting a
(nonnegative) rotation by any whole number of turns leaves the resolved
index unchanged. The resolver is a pure function of its two arguments, so
determinism is inherent. -/
theorem resolveIndex_periodic (rotation : ℚ) (k : ℤ) (segmentCount : ℕ)
    (h0 : 0 ≤ rotation) (hk : 0 ≤ rotation + 360 * (k : ℚ)) :
    resolveIndex (rotation + 360 * (k : ℚ)) segmentCount =
      resolveIndex rotation segmentCount := by
  unfold resolveIndex degreesFromTop normalizedRotation
  rw [jsMod_add_mul_int rotation 360 k (by norm_num)]

theorem resolveIndex_periodic_witness :
    0 ≤ (40 : ℚ) ∧ 0 ≤ (40 : ℚ) + 360 * ((5 : ℤ) : ℚ) ∧
    resolveIndex (40 + 360 * ((5 : ℤ) : ℚ)) 8 = resolveIndex 40 8 :=
  ⟨by norm_num, by norm_num,
   resolveIndex_periodic 40 5 8 (by norm_num) (by norm_num)⟩

/-- Claim C6: boundary values of the resolver with 8 segments: rotations
0, 359.999 and 360 all resolve to index 0. -/
theorem resolveIndex_boundary_values :
    resolveIndex 0 8 = 0 ∧ resolveIndex (359999 / 1000) 8 = 0 ∧
    resolveIndex 360 8 = 0 := by
  refine ⟨?_, ?_, ?_⟩ <;>
    norm_num [resolveIndex, degreesFromTop, normalizedRotation, segmentAngle, jsMod]

/-- Claim C2, counterexample: with the rotation 1840 produced by
`nextTarget` from previous rotation 0 (draws 0 and 40), normalization
gives 40, not 160, and the resolved index is not 4. -/
theorem scenarioA_as_stated_false :
    nextTarget 0 0 40 = 1840 ∧ normalizedRotation 1840 ≠ 160 ∧
    resolveIndex 1840 8 ≠ 4 := by
  refine ⟨?_, ?_, ?_⟩ <;>
    norm_num [nextTarget, extraSpins, resolveIndex, degreesFromTop,
      normalizedRotation, segmentAngle, jsMod]

lemma resolveIndex_1840 : resolveIndex 1840 8 = 7 := by
  norm_num [resolveIndex, degreesFromTop, normalizedRotation, segmentAngle, jsMod]

lemma handleSpin_from_initial :
    handleSpin initialState 0 40 =
      { rotation := 1840, isSpinning := false, loadingAI := false,
        resultData := none, pendingTimers := [1840], pendingFetches := [] } := by
  norm_num [handleSpin, isSpinningProp, initialState, nextTarget, extraSpins]

/-- Claim C2, amended: with 8 categories and previous rotation 0, if
`nextTarget` returns `5 * 360 + 40 = 1840` then normalization gives
`1840 mod 360 = 40`, the effective angle is `(360 - 40) mod 360 = 320`,
the segment angle is 45, and the resolved index is
`floor(320 / 45) = 7`, so the category at index 7 is selected. -/
theorem scenarioA_amended :
    nextTarget 0 0 40 = 1840 ∧ normalizedRotation 1840 = 40 ∧
    degreesFromTop 1840 = 320 ∧ segmentAngle 8 = 45 ∧
    resolveIndex 1840 8 = 7 ∧
    SEGMENTS.getD (resolveIndex 1840 8).toNat "" = "Until Playoffs" ∧
    (fireTimer (handleSpin initialState 0 40)).pendingFetches =
      ["Until Playoffs"] := by
  have h7 := resolveIndex_1840
  refine ⟨?_, ?_, ?_, ?_, h7, ?_, ?_⟩
  · norm_num [nextTarget, extraSpins]
  · norm_num [normalizedRotation, jsMod]
  · norm_num [degreesFromTop, normalizedRotation, jsMod]
  · norm_num [segmentAngle]
  · rw [h7]; rfl
  · rw [handleSpin_from_initial]
    show [SEGMENTS.getD (resolveIndex 1840 8).toNat ""] = ["Until Playoffs"]
    rw [h7]
    rfl

/-- Claim C3: for every prior rotation and every pair of random draws in
their ranges, the rotation added by the randomizer is `extraSpins * 360 +
offset` with `extraSpins` in `[5, 9]` and `offset` in `[0, 359]`, hence
lies in `[5 * 360, 9 * 360 + 360)`: strictly more than 4 and strictly
fewer than 10 full turns. -/
theorem nextTarget_bounds (previousRotation : ℚ) (spinRand offsetRand : ℕ)
    (hs : spinRand ≤ 4) (ho : offsetRand ≤ 359) :
    5 * 360 ≤ nextTarget previousRotation spinRand offsetRand - previousRotation ∧
    nextTarget previousRotation spinRand offsetRand - previousRotation <
      9 * 360 + 360 ∧
    5 ≤ extraSpins spinRand ∧ extraSpins spinRand ≤ 9 ∧
    4 * 360 < nextTarget previousRotation spinRand offsetRand - previousRotation ∧
    nextTarget previousRotation spinRand offsetRand - previousRotation <
      10 * 360 := by
  have key : nextTarget previousRotation spinRand offsetRand - previousRotation
      = ((extraSpins spinRand * 360 + offsetRand : ℕ) : ℚ) := by
    unfold nextTarget
    push_cast
    ring
  have hlo : 5 * 360 ≤ extraSpins spinRand * 360 + offsetRand := by
    unfold extraSpins; omega
  have hhi : extraSpins spinRand * 360 + offsetRand < 9 * 360 + 360 := by
    unfold extraSpins; omega
  refine ⟨?_, ?_, ?_, ?_, ?_, ?_⟩
  · rw [key]; exact_mod_cast hlo
  · rw [key]; exact_mod_cast hhi
  · unfold extraSpins; omega
  · unfold extraSpins; omega
  · rw [key]
    have : 4 * 360 < extraSpins spinRand * 360 + offsetRand := by
      unfold extraSpins; omega
    exact_mod_cast this
  · rw [key]
    have : extraSpins spinRand * 360 + offsetRand < 10 * 360 := by
      unfold extraSpins; omega
    exact_mod_cast this

theorem nextTarget_bounds_witness :
    (0 : ℕ) ≤ 4 ∧ (40 : ℕ) ≤ 359 ∧
    5 * 360 ≤ nextTarget 0 0 40 - 0 :=
  ⟨by decide, by decide, (nextTarget_bounds 0 0 40 (by decide) (by decide)).1⟩

/-- Claim C1, failing input: after an accepted spin the machine is in the
Spinning phase (one scheduled resolution callback), yet `App.isSpinning`
and `loadingAI` are both still false, because the program never calls
`setIsSpinning(true)`; a second `spin()` during this phase is therefore
accepted: it changes the Rotation State and schedules a second resolution
callback, so spins are not serialized. -/
theorem spin_accepted_while_spinning :
    (handleSpin initialState 0 40).pendingTimers.length = 1 ∧
    (handleSpin initialState 0 40).isSpinning = false ∧
    (handleSpin initialState 0 40).loadingAI = false ∧
    (handleSpin (handleSpin initialState 0 40) 0 100).pendingTimers.length = 2 ∧
    (handleSpin (handleSpin initialState 0 40) 0 100).rotation ≠
      (handleSpin initialState 0 40).rotation := by
  rw [handleSpin_from_initial]
  refine ⟨rfl, rfl, rfl, ?_, ?_⟩ <;>
    norm_num [handleSpin, isSpinningProp, nextTarget, extraSpins]

/-- Claim C7: on any failure of the generation-service call (the call
rejects, or its response text fails to parse) the fetcher returns the
fallback record for the input category: its timeline field equals the raw
input category, all five fields are non-empty, and all five fields are
present, exactly as in a success record. -/
theorem fetcher_fallback_on_failure (timelineCategory : String)
    (svc : ServiceOutcome) (hcat : timelineCategory ∈ SEGMENTS)
    (hfail : svc = ServiceOutcome.failure ∨ svc = ServiceOutcome.parseThrows) :
    generateFunnyInjury timelineCategory svc =
      toPartial (fallbackRecord timelineCategory) ∧
    (fallbackRecord timelineCategory).timeline = timelineCategory ∧
    allFieldsNonEmpty (fallbackRecord timelineCategory) ∧
    allFieldsPresent (generateFunnyInjury timelineCategory svc) := by
  have hne : timelineCategory ≠ "" := by
    have hall : ∀ c ∈ SEGMENTS, c ≠ "" := by decide
    exact hall _ hcat
  have hfields : allFieldsNonEmpty (fallbackRecord timelineCategory) := by
    refine ⟨?_, ?_, hne, ?_, ?_⟩ <;> simp [fallbackRecord]
  rcases hfail with hf | hf <;> subst hf <;>
    exact ⟨rfl, rfl, hfields, ⟨rfl, rfl, rfl, rfl, rfl⟩⟩

theorem fetcher_fallback_on_failure_witness :
    "Day-to-Day" ∈ SEGMENTS ∧
    generateFunnyInjury "Day-to-Day" ServiceOutcome.failure =
      toPartial (fallbackRecord "Day-to-Day") :=
  ⟨by decide,
   (fetcher_fallback_on_failure "Day-to-Day" ServiceOutcome.failure
     (by decide) (Or.inl rfl)).1⟩

/-- Claim C8, counterexample: a service response that parses successfully
but carries none of the five fields (for example the response text `{}`)
is returned as-is, not replaced by the fallback record: the fetcher does
propagate a partially-populated record. -/
theorem missing_fields_propagated :
    generateFunnyInjury "Indefinite"
        (ServiceOutcome.parsed ⟨none, none, none, none, none⟩) =
      ⟨none, none, none, none, none⟩ ∧
    generateFunnyInjury "Indefinite"
        (ServiceOutcome.parsed ⟨none, none, none, none, none⟩) ≠
      toPartial (fallbackRecord "Indefinite") ∧
    ¬ allFieldsPresent (generateFunnyInjury "Indefinite"
        (ServiceOutcome.parsed ⟨none, none, none, none, none⟩)) := by
  refine ⟨rfl, ?_, ?_⟩
  · intro h
    have hpa := congrArg PartialRecord.player_alias h
    simp [generateFunnyInjury, toPartial, fallbackRecord] at hpa
  · intro h
    have h1 := h.1
    simp [generateFunnyInjury] at h1

/-- Claim C8, amended: if parsing of the response text throws, the fetcher
treats it identically to a service failure and returns the fallback
record; but a response that parses successfully is returned as-is, with no
field validation, even if fields are missing. -/
theorem fetcher_parse_behavior (timelineCategory : String) (o : PartialRecord) :
    generateFunnyInjury timelineCategory ServiceOutcome.parseThrows =
      toPartial (fallbackRecord timelineCategory) ∧
    generateFunnyInjury timelineCategory (ServiceOutcome.parsed o) = o :=
  ⟨rfl, rfl⟩

/-- Claim C9: while a fetch is outstanding (`loadingAI` is true) a spin is
rejected; when the fetch settles, the continuation stores the new outcome
record in the Result Store first (spins still rejected at that point,
since `loadingAI` is still true), and only the subsequent
`setLoadingAI(false)` / `setIsSpinning(false)` steps re-open the gate:
in the resulting state the record is present and a spin is accepted
(it schedules a new resolution callback). -/
theorem resultStore_before_idle (s : AppState) (cat : String)
    (svc : ServiceOutcome) (spinRand offsetRand : ℕ)
    (h : s.loadingAI = true) :
    handleSpin s spinRand offsetRand = s ∧
    (setResultData s (generateFunnyInjury cat svc)).resultData =
      some (generateFunnyInjury cat svc) ∧
    handleSpin (setResultData s (generateFunnyInjury cat svc)) spinRand offsetRand =
      setResultData s (generateFunnyInjury cat svc) ∧
    (handleSpinEndResume s cat svc).resultData =
      some (generateFunnyInjury cat svc) ∧
    (handleSpinEndResume s cat svc).loadingAI = false ∧
    (handleSpinEndResume s cat svc).isSpinning = false ∧
    (handleSpin (handleSpinEndResume s cat svc) spinRand offsetRand).pendingTimers.length
      = (handleSpinEndResume s cat svc).pendingTimers.length + 1 := by
  refine ⟨?_, rfl, ?_, rfl, rfl, rfl, ?_⟩
  · simp [handleSpin, isSpinningProp, h]
  · simp [handleSpin, isSpinningProp, setResultData, h]
  · simp [handleSpin, isSpinningProp, handleSpinEndResume, setIsSpinning,
      setLoadingAI, setResultData]

theorem resultStore_before_idle_witness :
    ({ initialState with loadingAI := true } : AppState).loadingAI = true ∧
    handleSpin { initialState with loadingAI := true } 0 0 =
      { initialState with loadingAI := true } :=
  ⟨rfl,
   (resultStore_before_idle { initialState with loadingAI := true }
     "Indefinite" ServiceOutcome.failure 0 0 rfl).1⟩

/-- Claim C10: the fallback record is fully determined by the input
category: its timeline field is the raw input label and its other four
fields are fixed constants; for the category named Robidas Island the
fallback timeline is the raw label, while the prompt of the success path
uses the expanded label, so the two differ. -/
theorem fallback_determined_by_category (timelineCategory : String) :
    fallbackRecord timelineCategory =
      { player_alias := "Core Four Member",
        diagnosis := "Failed to load AI wit.",
        timeline := timelineCategory,
        coach_quote := "We\x27re just taking it one error at a time.",
        cap_implication := "We are over the limit." } ∧
    (fallbackRecord "Robidas Island").timeline = "Robidas Island" ∧
    promptTimeline "Robidas Island" =
      "Long Term Injured Reserve (LTIR) / Robidas Island" ∧
    promptTimeline "Robidas Island" ≠ (fallbackRecord "Robidas Island").timeline := by
  refine ⟨rfl, rfl, ?_, ?_⟩
  · simp [promptTimeline]
  · simp [promptTimeline, fallbackRecord]
